import Mathlib

/-!
Verification of the `JoystickInput` poller of the qgroundcontrolUP repository
(`src/src/input/JoystickInput.h`).

The repository ships only the class declaration; the member-function bodies
live in a translation unit that is not part of the sources.  Throughout,
definitions whose body is not in the header are therefore modelled from the
specification's description of the poller (data model, poll-cycle algorithm,
setter semantics), while names and field layout follow the header.  Rational
numbers stand in for the C++ doubles/floats; the IEEE not-a-number sentinel
used for an unmapped logical channel is modelled as `Option.none`.
-/

/-- The logical control channels, mirroring the header's
`JOYSTICK_INPUT_MAPPING` enum (NONE = 0, YAW = 1, PITCH = 2, ROLL = 3,
THROTTLE = 4). -/
inductive JOYSTICK_INPUT_MAPPING : Type
  | NONE
  | YAW
  | PITCH
  | ROLL
  | THROTTLE
deriving DecidableEq, Repr

/-- A device descriptor as enumerated by the input library: display name,
axis count and button count. -/
structure SDLJoystickDevice : Type where
  name : String
  numAxes : Nat
  numButtons : Nat
deriving DecidableEq, Repr

instance : Inhabited SDLJoystickDevice := ⟨⟨"", 0, 0⟩⟩

/-- Outbound notifications of the poller.  Each constructor corresponds to one
signal of the header: `axisValueChanged`, `buttonPressed`, `buttonReleased`,
`hatDirectionChanged`, `joystickChanged`; `fullState` models the single
full-state resynchronisation update emitted by `setActiveJoystick`.  A channel
argument of `none` models the not-a-number sentinel of an unmapped channel. -/
inductive Notification : Type
  | axisValueChanged (axis : Nat) (value : ℚ)
  | buttonPressed (key : Nat)
  | buttonReleased (key : Nat)
  | hatDirectionChanged (x y : Int)
  | joystickChanged (roll pitch yaw throttle : Option ℚ) (xHat yHat : Int)
      (buttons : Nat)
  | fullState (axes : List ℚ) (buttons : Nat) (xHat yHat : Int)
deriving DecidableEq, Repr

/-- The poller's state, following the protected data members of the header.
The per-channel mappings (`rollAxis`, …) hold the physical axis mapped to the
channel, `none` when the channel is unmapped.  `joystickOpen` models whether
the `SDL_Joystick*` handle is held.  `sdlJoystickMin`/`sdlJoystickMax` are the
const device raw range bounds of the header. -/
structure JoystickInput : Type where
  done : Bool
  joystickOpen : Bool
  rollAxis : Option Nat
  pitchAxis : Option Nat
  yawAxis : Option Nat
  throttleAxis : Option Nat
  numJoysticks : Nat
  joystickName : String
  joystickID : Int
  joystickNumAxes : Nat
  joystickNumButtons : Nat
  joystickAxes : List ℚ
  joystickAxesInverted : List Bool
  joystickAxesLimited : List Bool
  joystickButtons : Nat
  xHat : Int
  yHat : Int
  calibrationPositive : List ℚ
  calibrationNegative : List ℚ
  sdlJoystickMin : ℚ
  sdlJoystickMax : ℚ
deriving DecidableEq, Repr

/-- Clamp `x` into the interval `[lo, hi]`. -/
def clampQ (lo hi x : ℚ) : ℚ := max lo (min hi x)

/-- Modelled from the spec: the per-axis calibration transform of the poll
cycle (the body of `JoystickInput::run` is not in the sources).  Following the
spec's poll-cycle step 3: normalize the raw reading into `[-1, 1]` using the
device-reported min/max, negate if the inversion flag is set, and under range
limiting use only the positive half (the spec leaves the exact rescaling
formula open and asserts range-limited output is never negative, so the
negative half is clamped to 0 and the positive half, already spanning
`[0, 1]`, is kept); finally clamp to the calibration bounds `[cn, cp]`. -/
def calibrate (cn cp : ℚ) (inverted limited : Bool) (smin smax r : ℚ) : ℚ :=
  let n0 := clampQ (-1) 1 (2 * (r - smin) / (smax - smin) - 1)
  let n1 := if inverted then -n0 else n0
  let n2 := if limited then max 0 n1 else n1
  clampQ cn cp n2

/-- The calibrated value the poll cycle computes for physical axis `i` of
state `s` when the device reports raw reading `r` there. -/
def axisCalibratedValue (s : JoystickInput) (i : Nat) (r : ℚ) : ℚ :=
  calibrate (s.calibrationNegative.getD i (-1)) (s.calibrationPositive.getD i 1)
    (s.joystickAxesInverted.getD i false) (s.joystickAxesLimited.getD i false)
    s.sdlJoystickMin s.sdlJoystickMax r

/-- The logical channel physical axis `axis` is currently mapped to
(`NONE` when the axis is unmapped). -/
def axisMapping (s : JoystickInput) (axis : Nat) : JOYSTICK_INPUT_MAPPING :=
  if s.rollAxis = some axis then .ROLL
  else if s.pitchAxis = some axis then .PITCH
  else if s.yawAxis = some axis then .YAW
  else if s.throttleAxis = some axis then .THROTTLE
  else .NONE

/-- Modelled from the spec: `JoystickInput::setAxisMapping` (body not in the
sources).  Assigns logical channel `m` to physical axis `axis`; any channel
currently holding `axis` is cleared first, and assigning the channel demotes
whichever axis previously held it, enforcing the last-assignment-wins
uniqueness invariant. -/
def setAxisMapping (s : JoystickInput) (axis : Nat)
    (m : JOYSTICK_INPUT_MAPPING) : JoystickInput :=
  let s1 : JoystickInput :=
    { s with
      rollAxis := if s.rollAxis = some axis then none else s.rollAxis
      pitchAxis := if s.pitchAxis = some axis then none else s.pitchAxis
      yawAxis := if s.yawAxis = some axis then none else s.yawAxis
      throttleAxis := if s.throttleAxis = some axis then none else s.throttleAxis }
  match m with
  | .NONE => s1
  | .ROLL => { s1 with rollAxis := some axis }
  | .PITCH => { s1 with pitchAxis := some axis }
  | .YAW => { s1 with yawAxis := some axis }
  | .THROTTLE => { s1 with throttleAxis := some axis }

/-- Modelled from the spec: `JoystickInput::setAxisInversion` (body not in the
sources).  Updates the per-axis inversion flag; `List.set` is a no-op on an
out-of-range index. -/
def setAxisInversion (s : JoystickInput) (axis : Nat) (inverted : Bool) :
    JoystickInput :=
  { s with joystickAxesInverted := s.joystickAxesInverted.set axis inverted }

/-- Modelled from the spec: `JoystickInput::setAxisRangeLimit` (body not in
the sources).  Updates the per-axis range-limit flag. -/
def setAxisRangeLimit (s : JoystickInput) (axis : Nat) (limitRange : Bool) :
    JoystickInput :=
  { s with joystickAxesLimited := s.joystickAxesLimited.set axis limitRange }

/-- Modelled from the spec: `JoystickInput::getCurrentValueForAxis` (body not
in the sources).  Returns the most recent calibrated reading for a physical
axis; an index beyond the stored snapshot yields the undefined sentinel
(`none`). -/
def getCurrentValueForAxis (s : JoystickInput) (axis : Nat) : Option ℚ :=
  s.joystickAxes[axis]?

/-- Modelled from the spec: `JoystickInput::getInvertedForAxis` (body not in
the sources).  Out-of-range axes yield the default `false`. -/
def getInvertedForAxis (s : JoystickInput) (axis : Nat) : Bool :=
  s.joystickAxesInverted.getD axis false

/-- Modelled from the spec: `JoystickInput::getRangeLimitForAxis` (body not
in the sources).  Out-of-range axes yield the default `false`. -/
def getRangeLimitForAxis (s : JoystickInput) (axis : Nat) : Bool :=
  s.joystickAxesLimited.getD axis false

/-- Embedded from the header's inline body: `getJoystickNameById` forwards
`id` straight to `SDL_JoystickName` (here the oracle `sdlJoystickName`) with
no range validation, and, being a const member, returns the state unchanged. -/
def getJoystickNameById (sdlJoystickName : Int → String) (s : JoystickInput)
    (id : Int) : String × JoystickInput :=
  (sdlJoystickName id, s)

/-- One poll's raw device readings: per-axis raw values, button bitfield and
hat direction. -/
structure PollInput : Type where
  raw : Nat → ℚ
  buttons : Nat
  hatX : Int
  hatY : Int

/-- The calibrated snapshot a poll cycle computes: one entry per axis of the
active device. -/
def calibratedAxes (s : JoystickInput) (inp : PollInput) : List ℚ :=
  (List.range s.joystickNumAxes).map fun i => axisCalibratedValue s i (inp.raw i)

/-- The logical-channel value carried in the combined update: the calibrated
value of the mapped physical axis, or the not-a-number sentinel (`none`) when
no axis is mapped to the channel. -/
def channelValue (newAxes : List ℚ) (a : Option Nat) : Option ℚ :=
  a.map fun i => newAxes.getD i 0

/-- Modelled from the spec: one iteration of the poll cycle (the body of
`JoystickInput::run` is not in the sources), following the spec's steps 2–8:
calibrate every axis; emit `axisValueChanged` for each axis whose calibrated
value changed (the spec's "small epsilon" is modelled as exact inequality);
emit `buttonPressed`/`buttonReleased` for each button bit that transitioned;
emit `hatDirectionChanged` on hat change; emit the combined `joystickChanged`
carrying the four mapped channel values (not-a-number sentinel when
unmapped), hat and button bitfield; store the new snapshot. -/
def pollCycle (s : JoystickInput) (inp : PollInput) :
    JoystickInput × List Notification :=
  let newAxes := calibratedAxes s inp
  let axisNotifs := (List.range s.joystickNumAxes).filterMap fun i =>
    if newAxes.getD i 0 ≠ s.joystickAxes.getD i 0 then
      some (Notification.axisValueChanged i (newAxes.getD i 0))
    else none
  let pressNotifs := (List.range s.joystickNumButtons).filterMap fun i =>
    if inp.buttons.testBit i ∧ ¬ s.joystickButtons.testBit i then
      some (Notification.buttonPressed i)
    else none
  let releaseNotifs := (List.range s.joystickNumButtons).filterMap fun i =>
    if ¬ inp.buttons.testBit i ∧ s.joystickButtons.testBit i then
      some (Notification.buttonReleased i)
    else none
  let hatNotifs :=
    if inp.hatX ≠ s.xHat ∨ inp.hatY ≠ s.yHat then
      [Notification.hatDirectionChanged inp.hatX inp.hatY]
    else []
  let combined := Notification.joystickChanged
    (channelValue newAxes s.rollAxis) (channelValue newAxes s.pitchAxis)
    (channelValue newAxes s.yawAxis) (channelValue newAxes s.throttleAxis)
    inp.hatX inp.hatY inp.buttons
  let s' := { s with joystickAxes := newAxes, joystickButtons := inp.buttons,
                     xHat := inp.hatX, yHat := inp.hatY }
  (s', axisNotifs ++ pressNotifs ++ releaseNotifs ++ hatNotifs ++ [combined])

/-- Modelled from the spec: `JoystickInput::setActiveJoystick` (body not in
the sources).  An `id` outside the enumerated devices is a silent no-op;
otherwise the device is opened, the descriptor and axis/button counts are
refreshed, per-axis calibration is reset to defaults, and exactly one
full-state notification reflecting the new device's state is emitted. -/
def setActiveJoystick (sdl : List SDLJoystickDevice) (s : JoystickInput)
    (id : Int) : JoystickInput × List Notification :=
  if 0 ≤ id ∧ id.toNat < sdl.length then
    let d := sdl.getD id.toNat default
    let s' : JoystickInput :=
      { s with
        joystickOpen := true
        joystickID := id
        joystickName := d.name
        numJoysticks := sdl.length
        joystickNumAxes := d.numAxes
        joystickNumButtons := d.numButtons
        joystickAxes := List.replicate d.numAxes 0
        joystickAxesInverted := List.replicate d.numAxes false
        joystickAxesLimited := List.replicate d.numAxes false
        calibrationPositive := List.replicate d.numAxes 1
        calibrationNegative := List.replicate d.numAxes (-1)
        joystickButtons := 0
        xHat := 0
        yHat := 0 }
    (s', [Notification.fullState s'.joystickAxes s'.joystickButtons s'.xHat s'.yHat])
  else (s, [])

/-- Modelled from the spec: one iteration of `JoystickInput::run`'s loop body
with no device open is a skipped cycle emitting nothing. -/
def pollOnce (s : JoystickInput) (inp : PollInput) :
    JoystickInput × List Notification :=
  if s.joystickOpen then pollCycle s inp else (s, [])

/-- Modelled from the spec: the polling loop of `JoystickInput::run` (body
not in the sources), fuel-bounded.  The stop flag `done` is checked at the
start of every iteration; while it is clear the loop polls once and
continues with the next input. -/
def runLoop (fuel : Nat) (s : JoystickInput) (inputs : Nat → PollInput)
    (k : Nat) : JoystickInput × List Notification :=
  match fuel with
  | 0 => (s, [])
  | fuel + 1 =>
    if s.done then (s, [])
    else
      let p := pollOnce s (inputs k)
      let rest := runLoop fuel p.1 inputs (k + 1)
      (rest.1, p.2 ++ rest.2)

/-- Modelled from the spec: `JoystickInput::shutdown` (body not in the
sources).  Sets the stop flag and waits for the loop to exit, after which the
device handle is released; the returned state is the post-join state. -/
def shutdown (s : JoystickInput) : JoystickInput :=
  { s with done := true, joystickOpen := false }

/-! ### Concrete states used to instantiate the theorems -/

/-- A 4-axis, 4-button device state with the identity mapping
`{axis0 : ROLL, axis1 : PITCH, axis2 : YAW, axis3 : THROTTLE}`, no inversion
or range limits, default calibration bounds, and a raw range of `[-1, 1]`. -/
def sampleState : JoystickInput :=
  { done := false
    joystickOpen := true
    rollAxis := some 0
    pitchAxis := some 1
    yawAxis := some 2
    throttleAxis := some 3
    numJoysticks := 1
    joystickName := "gamepad"
    joystickID := 0
    joystickNumAxes := 4
    joystickNumButtons := 4
    joystickAxes := [0, 0, 0, 0]
    joystickAxesInverted := [false, false, false, false]
    joystickAxesLimited := [false, false, false, false]
    joystickButtons := 0
    xHat := 0
    yHat := 0
    calibrationPositive := [1, 1, 1, 1]
    calibrationNegative := [-1, -1, -1, -1]
    sdlJoystickMin := -1
    sdlJoystickMax := 1 }

/-- A poll input with raw readings `[0.5, -0.5, 0, 1]`, button bitfield
`0b0001` and a centered hat. -/
def sampleInput : PollInput :=
  { raw := fun i => [(1 : ℚ)/2, -1/2, 0, 1].getD i 0
    buttons := 1
    hatX := 0
    hatY := 0 }

/-! ### Helper lemmas -/

lemma calibratedAxes_length (s : JoystickInput) (inp : PollInput) :
    (calibratedAxes s inp).length = s.joystickNumAxes := by
  simp [calibratedAxes]

lemma calibratedAxes_getD (s : JoystickInput) (inp : PollInput) (i : Nat)
    (h : i < s.joystickNumAxes) :
    (calibratedAxes s inp).getD i 0 = axisCalibratedValue s i (inp.raw i) := by
  simp [calibratedAxes, List.getD, List.getElem?_map, List.getElem?_range h]

lemma clampQ_bounds (lo hi x : ℚ) (h1 : -1 ≤ lo) (h2 : lo ≤ hi) (h3 : hi ≤ 1) :
    -1 ≤ clampQ lo hi x ∧ clampQ lo hi x ≤ 1 := by
  unfold clampQ
  constructor
  · exact le_trans h1 (le_max_left _ _)
  · exact max_le (le_trans h2 h3) (le_trans (min_le_left _ _) h3)

lemma calibrate_bounds (cn cp : ℚ) (inv lim : Bool) (smin smax r : ℚ)
    (h1 : -1 ≤ cn) (h2 : cn ≤ cp) (h3 : cp ≤ 1) :
    -1 ≤ calibrate cn cp inv lim smin smax r ∧
      calibrate cn cp inv lim smin smax r ≤ 1 := by
  unfold calibrate
  exact clampQ_bounds cn cp _ h1 h2 h3

lemma calibrate_nonneg (cn cp : ℚ) (inv : Bool) (smin smax r : ℚ)
    (hcp : 0 ≤ cp) :
    0 ≤ calibrate cn cp inv true smin smax r := by
  unfold calibrate clampQ
  have h0 : (0 : ℚ) ≤ max 0 (if inv
      then -(max (-1) (min 1 (2 * (r - smin) / (smax - smin) - 1)))
      else max (-1) (min 1 (2 * (r - smin) / (smax - smin) - 1))) :=
    le_max_left _ _
  exact le_trans (le_min hcp h0) (le_max_right _ _)

/-! ### Claim theorems -/

/-- C10: `getJoystickNameById` is a pure pass-through query: for every id,
including ids outside the enumerated range, it returns exactly the name the
input library reports for that id, with no range validation, and it leaves
the poller's state unchanged. -/
theorem C10_getJoystickNameById_passthrough (f : Int → String)
    (s : JoystickInput) (id : Int) :
    getJoystickNameById f s id = (f id, s) := rfl

/-- C9: `shutdown` sets the stop flag, which the polling loop checks at the
start of every iteration; once the flag is set the loop exits without
emitting anything, so no notification is emitted after `shutdown` returns;
`shutdown` is idempotent and releases the device handle. -/
theorem C9_shutdown_semantics (s : JoystickInput) (inputs : Nat → PollInput)
    (fuel k : Nat) :
    runLoop fuel (shutdown s) inputs k = (shutdown s, [])
  ∧ shutdown (shutdown s) = shutdown s
  ∧ (shutdown s).joystickOpen = false
  ∧ (shutdown s).done = true
  ∧ (s.done = true → runLoop fuel s inputs k = (s, [])) := by
  refine ⟨?_, rfl, rfl, rfl, ?_⟩
  · cases fuel <;> simp [runLoop, shutdown]
  · intro h
    cases fuel <;> simp [runLoop, h]

theorem C9_witness :
    runLoop 5 (shutdown sampleState) (fun _ => sampleInput) 0
        = (shutdown sampleState, [])
      ∧ ({ sampleState with done := true } : JoystickInput).done = true
      ∧ runLoop 5 ({ sampleState with done := true }) (fun _ => sampleInput) 0
        = ({ sampleState with done := true }, []) :=
  ⟨(C9_shutdown_semantics sampleState (fun _ => sampleInput) 5 0).1, rfl,
   (C9_shutdown_semantics { sampleState with done := true }
      (fun _ => sampleInput) 5 0).2.2.2.2 rfl⟩

/-- C7: `setActiveJoystick` with an id outside the enumerated devices is a
silent no-op leaving the state unchanged and emitting nothing; with a valid
id it opens the device, refreshes the descriptor and axis/button counts,
resets per-axis calibration, and emits exactly one full-state notification
reflecting the new device's state. -/
theorem C7_setActiveJoystick_validation (sdl : List SDLJoystickDevice)
    (s : JoystickInput) (id : Int) :
    (¬ (0 ≤ id ∧ id.toNat < sdl.length) → setActiveJoystick sdl s id = (s, []))
  ∧ ((0 ≤ id ∧ id.toNat < sdl.length) →
      (setActiveJoystick sdl s id).1.joystickOpen = true
    ∧ (setActiveJoystick sdl s id).1.joystickID = id
    ∧ (setActiveJoystick sdl s id).1.joystickName = (sdl.getD id.toNat default).name
    ∧ (setActiveJoystick sdl s id).1.joystickNumAxes = (sdl.getD id.toNat default).numAxes
    ∧ (setActiveJoystick sdl s id).1.joystickNumButtons = (sdl.getD id.toNat default).numButtons
    ∧ (setActiveJoystick sdl s id).1.joystickAxes
        = List.replicate (sdl.getD id.toNat default).numAxes 0
    ∧ (setActiveJoystick sdl s id).1.joystickAxesInverted
        = List.replicate (sdl.getD id.toNat default).numAxes false
    ∧ (setActiveJoystick sdl s id).1.joystickAxesLimited
        = List.replicate (sdl.getD id.toNat default).numAxes false
    ∧ (setActiveJoystick sdl s id).1.calibrationPositive
        = List.replicate (sdl.getD id.toNat default).numAxes 1
    ∧ (setActiveJoystick sdl s id).1.calibrationNegative
        = List.replicate (sdl.getD id.toNat default).numAxes (-1)
    ∧ (setActiveJoystick sdl s id).2
        = [Notification.fullState (setActiveJoystick sdl s id).1.joystickAxes
            (setActiveJoystick sdl s id).1.joystickButtons
            (setActiveJoystick sdl s id).1.xHat
            (setActiveJoystick sdl s id).1.yHat]) := by
  constructor
  · intro h
    simp [setActiveJoystick, h]
  · intro h
    simp [setActiveJoystick, h]

theorem C7_witness :
    setActiveJoystick [⟨"gamepad", 4, 4⟩] sampleState 7 = (sampleState, [])
  ∧ (setActiveJoystick [⟨"gamepad", 4, 4⟩] sampleState 0).1.joystickNumAxes = 4
  ∧ (setActiveJoystick [⟨"gamepad", 4, 4⟩] sampleState 0).2
      = [Notification.fullState [0, 0, 0, 0] 0 0 0] := by
  refine ⟨(C7_setActiveJoystick_validation [⟨"gamepad", 4, 4⟩] sampleState 7).1 (by decide),
    ?_, ?_⟩
  · have h := (C7_setActiveJoystick_validation [⟨"gamepad", 4, 4⟩] sampleState 0).2
      (by constructor <;> decide)
    exact h.2.2.2.1
  · have h := (C7_setActiveJoystick_validation [⟨"gamepad", 4, 4⟩] sampleState 0).2
      (by constructor <;> decide)
    rw [h.2.2.2.2.2.2.2.2.2.2]
    rw [h.2.2.2.2.2.1]
    simp [setActiveJoystick, List.replicate]

/-- C6: for an axis index at or beyond the active device's axis count the
query methods return the undefined sentinel (`getCurrentValueForAxis`) or the
default `false` (`getInvertedForAxis`, `getRangeLimitForAxis`); moreover both
`setActiveJoystick` and the poll cycle keep the stored snapshot sized to the
active device's axis count, so no stale value from a previous device is ever
reachable. -/
theorem C6_out_of_range_sentinel (s : JoystickInput) (axis : Nat)
    (h1 : s.joystickAxes.length = s.joystickNumAxes)
    (h2 : s.joystickAxesInverted.length = s.joystickNumAxes)
    (h3 : s.joystickAxesLimited.length = s.joystickNumAxes)
    (h : s.joystickNumAxes ≤ axis) :
    getCurrentValueForAxis s axis = none
  ∧ getInvertedForAxis s axis = false
  ∧ getRangeLimitForAxis s axis = false
  ∧ (∀ sdl id, ((setActiveJoystick sdl s id).1.joystickAxes.length
        = (setActiveJoystick sdl s id).1.joystickNumAxes))
  ∧ (∀ inp, (pollCycle s inp).1.joystickAxes.length
        = (pollCycle s inp).1.joystickNumAxes) := by
  refine ⟨?_, ?_, ?_, ?_, ?_⟩
  · simp [getCurrentValueForAxis, List.getElem?_eq_none, h1.le.trans h]
  · simp [getInvertedForAxis, List.getD_eq_getElem?_getD,
      List.getElem?_eq_none (h2.le.trans h)]
  · simp [getRangeLimitForAxis, List.getD_eq_getElem?_getD,
      List.getElem?_eq_none (h3.le.trans h)]
  · intro sdl id
    by_cases hid : 0 ≤ id ∧ id.toNat < sdl.length
    · simp [setActiveJoystick, hid]
    · simp [setActiveJoystick, hid, h1]
  · intro inp
    simp [pollCycle, calibratedAxes_length]

theorem C6_witness :
    getCurrentValueForAxis sampleState 7 = none
  ∧ getInvertedForAxis sampleState 7 = false
  ∧ getRangeLimitForAxis sampleState 7 = false := by
  have h := C6_out_of_range_sentinel sampleState 7 (by decide) (by decide)
    (by decide) (by decide)
  exact ⟨h.1, h.2.1, h.2.2.1⟩

lemma rollAxis_setAxisMapping (s : JoystickInput) (axis : Nat)
    (m : JOYSTICK_INPUT_MAPPING) :
    (setAxisMapping s axis m).rollAxis =
      if m = .ROLL then some axis
      else if s.rollAxis = some axis then none else s.rollAxis := by
  cases m <;> simp [setAxisMapping]

lemma pitchAxis_setAxisMapping (s : JoystickInput) (axis : Nat)
    (m : JOYSTICK_INPUT_MAPPING) :
    (setAxisMapping s axis m).pitchAxis =
      if m = .PITCH then some axis
      else if s.pitchAxis = some axis then none else s.pitchAxis := by
  cases m <;> simp [setAxisMapping]

lemma yawAxis_setAxisMapping (s : JoystickInput) (axis : Nat)
    (m : JOYSTICK_INPUT_MAPPING) :
    (setAxisMapping s axis m).yawAxis =
      if m = .YAW then some axis
      else if s.yawAxis = some axis then none else s.yawAxis := by
  cases m <;> simp [setAxisMapping]

lemma throttleAxis_setAxisMapping (s : JoystickInput) (axis : Nat)
    (m : JOYSTICK_INPUT_MAPPING) :
    (setAxisMapping s axis m).throttleAxis =
      if m = .THROTTLE then some axis
      else if s.throttleAxis = some axis then none else s.throttleAxis := by
  cases m <;> simp [setAxisMapping]

lemma double_clears_roll (s : JoystickInput) (a b : Nat)
    (c : JOYSTICK_INPUT_MAPPING) (hab : a ≠ b) :
    (setAxisMapping (setAxisMapping s a c) b c).rollAxis ≠ some a := by
  have hba : b ≠ a := Ne.symm hab
  rw [rollAxis_setAxisMapping, rollAxis_setAxisMapping]
  split_ifs <;> simp_all

lemma double_clears_pitch (s : JoystickInput) (a b : Nat)
    (c : JOYSTICK_INPUT_MAPPING) (hab : a ≠ b) :
    (setAxisMapping (setAxisMapping s a c) b c).pitchAxis ≠ some a := by
  have hba : b ≠ a := Ne.symm hab
  rw [pitchAxis_setAxisMapping, pitchAxis_setAxisMapping]
  split_ifs <;> simp_all

lemma double_clears_yaw (s : JoystickInput) (a b : Nat)
    (c : JOYSTICK_INPUT_MAPPING) (hab : a ≠ b) :
    (setAxisMapping (setAxisMapping s a c) b c).yawAxis ≠ some a := by
  have hba : b ≠ a := Ne.symm hab
  rw [yawAxis_setAxisMapping, yawAxis_setAxisMapping]
  split_ifs <;> simp_all

lemma double_clears_throttle (s : JoystickInput) (a b : Nat)
    (c : JOYSTICK_INPUT_MAPPING) (hab : a ≠ b) :
    (setAxisMapping (setAxisMapping s a c) b c).throttleAxis ≠ some a := by
  have hba : b ≠ a := Ne.symm hab
  rw [throttleAxis_setAxisMapping, throttleAxis_setAxisMapping]
  split_ifs <;> simp_all

set_option maxHeartbeats 1000000

/-- C2: mapping uniqueness: in any state, at most one physical axis is mapped
to each non-`NONE` logical channel; and after `setAxisMapping a c` followed
by `setAxisMapping b c` with `a ≠ b` and `c ≠ NONE`, axis `a`'s mapping is
`NONE` and `b` is the unique axis mapped to `c`. -/
theorem C2_mapping_uniqueness (s : JoystickInput)
    (c : JOYSTICK_INPUT_MAPPING) (a b : Nat)
    (hc : c ≠ .NONE) (hab : a ≠ b) :
    (∀ x y : Nat, axisMapping s x = c → axisMapping s y = c → x = y)
  ∧ axisMapping (setAxisMapping (setAxisMapping s a c) b c) a = .NONE
  ∧ axisMapping (setAxisMapping (setAxisMapping s a c) b c) b = c
  ∧ (∀ x, axisMapping (setAxisMapping (setAxisMapping s a c) b c) x = c → x = b) := by
  refine ⟨?_, ?_, ?_, ?_⟩
  · intro x y hx hy
    cases c <;> unfold axisMapping at hx hy <;>
      split_ifs at hx hy <;> simp_all
  · simp [axisMapping, double_clears_roll s a b c hab,
      double_clears_pitch s a b c hab, double_clears_yaw s a b c hab,
      double_clears_throttle s a b c hab]
  · cases c with
    | NONE => exact absurd rfl hc
    | ROLL =>
      simp [axisMapping, rollAxis_setAxisMapping]
      all_goals first
        | tauto
        | (split_ifs <;> tauto)
    | PITCH =>
      simp [axisMapping, rollAxis_setAxisMapping, pitchAxis_setAxisMapping]
      all_goals first
        | tauto
        | (split_ifs <;> tauto)
    | YAW =>
      simp [axisMapping, rollAxis_setAxisMapping, pitchAxis_setAxisMapping,
        yawAxis_setAxisMapping]
      all_goals first
        | tauto
        | (split_ifs <;> tauto)
    | THROTTLE =>
      simp [axisMapping, rollAxis_setAxisMapping, pitchAxis_setAxisMapping,
        yawAxis_setAxisMapping, throttleAxis_setAxisMapping]
      all_goals first
        | tauto
        | (split_ifs <;> tauto)
  · intro x hx
    by_contra hxb
    cases c with
    | NONE => exact absurd rfl hc
    | ROLL =>
      have hfc : (setAxisMapping (setAxisMapping s a .ROLL) b .ROLL).rollAxis
          = some b := by
        rw [rollAxis_setAxisMapping]; simp
      simp only [axisMapping] at hx
      split_ifs at hx <;> simp_all
    | PITCH =>
      have hfc : (setAxisMapping (setAxisMapping s a .PITCH) b .PITCH).pitchAxis
          = some b := by
        rw [pitchAxis_setAxisMapping]; simp
      simp only [axisMapping] at hx
      split_ifs at hx <;> simp_all
    | YAW =>
      have hfc : (setAxisMapping (setAxisMapping s a .YAW) b .YAW).yawAxis
          = some b := by
        rw [yawAxis_setAxisMapping]; simp
      simp only [axisMapping] at hx
      split_ifs at hx <;> simp_all
    | THROTTLE =>
      have hfc : (setAxisMapping (setAxisMapping s a .THROTTLE) b
          .THROTTLE).throttleAxis = some b := by
        rw [throttleAxis_setAxisMapping]; simp
      simp only [axisMapping] at hx
      split_ifs at hx <;> simp_all

set_option maxHeartbeats 200000

theorem C2_witness :
    axisMapping (setAxisMapping (setAxisMapping sampleState 0 .ROLL) 1 .ROLL) 0
      = .NONE
  ∧ axisMapping (setAxisMapping (setAxisMapping sampleState 0 .ROLL) 1 .ROLL) 1
      = .ROLL := by
  have h := C2_mapping_uniqueness sampleState .ROLL 0 1 (by decide) (by decide)
  exact ⟨h.2.1, h.2.2.1⟩

/-- C1: each poll cycle's combined `joystickChanged` update carries, for each
logical channel, the calibrated value of the physical axis currently mapped
to it, and the not-a-number sentinel (`none`) for every unmapped channel; in
particular, for the 4-axis identity-mapped device with raw readings
`[0.5, -0.5, 0, 1]` and no inversion or range limits it carries
`roll = 0.5`, `pitch = -0.5`, `yaw = 0`, `throttle = 1`. -/
theorem C1_combined_update_channels (s : JoystickInput) (inp : PollInput)
    (hmap : ∀ i : Nat,
      s.rollAxis = some i ∨ s.pitchAxis = some i ∨ s.yawAxis = some i ∨
        s.throttleAxis = some i → i < s.joystickNumAxes) :
    (pollCycle s inp).2.getLast? = some (Notification.joystickChanged
      (s.rollAxis.map fun i => axisCalibratedValue s i (inp.raw i))
      (s.pitchAxis.map fun i => axisCalibratedValue s i (inp.raw i))
      (s.yawAxis.map fun i => axisCalibratedValue s i (inp.raw i))
      (s.throttleAxis.map fun i => axisCalibratedValue s i (inp.raw i))
      inp.hatX inp.hatY inp.buttons) := by
  have hch : ∀ a : Option Nat,
      (∀ i, a = some i → i < s.joystickNumAxes) →
      channelValue (calibratedAxes s inp) a
        = a.map fun i => axisCalibratedValue s i (inp.raw i) := by
    intro a ha
    cases a with
    | none => rfl
    | some i =>
      simp only [channelValue, Option.map_some]
      exact congrArg some (calibratedAxes_getD s inp i (ha i rfl))
  show (_ ++ _ ++ _ ++ _ ++ [_]).getLast? = _
  rw [show ∀ l1 l2 l3 l4 (x : Notification),
        l1 ++ l2 ++ l3 ++ l4 ++ [x] = (l1 ++ l2 ++ l3 ++ l4) ++ [x] from
      fun _ _ _ _ _ => rfl,
    List.getLast?_concat]
  rw [hch s.rollAxis fun i h => hmap i (Or.inl h),
    hch s.pitchAxis fun i h => hmap i (Or.inr (Or.inl h)),
    hch s.yawAxis fun i h => hmap i (Or.inr (Or.inr (Or.inl h))),
    hch s.throttleAxis fun i h => hmap i (Or.inr (Or.inr (Or.inr h)))]

theorem C1_witness :
    (pollCycle sampleState sampleInput).2.getLast? = some
      (Notification.joystickChanged (some (1/2)) (some (-(1/2))) (some 0)
        (some 1) 0 0 1) := by
  rw [C1_combined_update_channels sampleState sampleInput
    (by intro i h; rcases h with h | h | h | h <;>
      simp [sampleState] at h ⊢ <;> omega)]
  norm_num [sampleState, sampleInput, axisCalibratedValue, calibrate, clampQ,
    min_def, max_def]

lemma count_filterMap_ite {β : Type} [DecidableEq β] (g : Nat → β)
    (hg : Function.Injective g) (p : Nat → Prop) [DecidablePred p]
    (l : List Nat) (i : Nat) :
    (l.filterMap fun j => if p j then some (g j) else none).count (g i)
      = if p i then l.count i else 0 := by
  induction l with
  | nil => simp
  | cons a t ih =>
    by_cases hpa : p a
    · by_cases hai : a = i
      · subst hai
        simp [List.filterMap_cons, hpa, List.count_cons, ih]
      · have : g a ≠ g i := fun h => hai (hg h)
        simp [List.filterMap_cons, hpa, List.count_cons, ih, this, hai]
    · by_cases hai : a = i
      · subst hai
        simp [List.filterMap_cons, hpa, List.count_cons, ih]
      · simp [List.filterMap_cons, hpa, List.count_cons, ih, hai]

lemma count_filterMap_zero {β : Type} [DecidableEq β] (f : Nat → Option β)
    (x : β) (l : List Nat) (hx : ∀ j y, f j = some y → y ≠ x) :
    (l.filterMap f).count x = 0 := by
  rw [List.count_eq_zero]
  intro hmem
  obtain ⟨j, _, hj⟩ := List.mem_filterMap.1 hmem
  exact hx j x hj rfl

lemma count_range (n i : Nat) :
    (List.range n).count i = if i < n then 1 else 0 := by
  by_cases h : i < n
  · rw [if_pos h, List.count_eq_one_of_mem (List.nodup_range n) (by simpa using h)]
  · rw [if_neg h, List.count_eq_zero_of_not_mem (by simpa using h)]

/-- C8: on each poll cycle exactly one `buttonPressed` notification is
emitted for each button index whose bit transitioned 0→1, exactly one
`buttonReleased` for each bit that transitioned 1→0, and no others; in
particular a bitfield transition `0b0000 → 0b0001` yields exactly one
`buttonPressed 0` and no `buttonReleased`. -/
theorem C8_button_transition_counts (s : JoystickInput) (inp : PollInput)
    (i : Nat) :
    ((pollCycle s inp).2.count (Notification.buttonPressed i)
      = if i < s.joystickNumButtons ∧ inp.buttons.testBit i
            ∧ ¬ s.joystickButtons.testBit i then 1 else 0)
  ∧ ((pollCycle s inp).2.count (Notification.buttonReleased i)
      = if i < s.joystickNumButtons ∧ ¬ inp.buttons.testBit i
            ∧ s.joystickButtons.testBit i then 1 else 0)
  ∧ (pollCycle sampleState sampleInput).2.count (Notification.buttonPressed 0)
      = 1
  ∧ (∀ j, (pollCycle sampleState sampleInput).2.count
      (Notification.buttonReleased j) = 0) := by
  suffices main : ∀ (s : JoystickInput) (inp : PollInput) (i : Nat),
      ((pollCycle s inp).2.count (Notification.buttonPressed i)
        = if i < s.joystickNumButtons ∧ inp.buttons.testBit i
              ∧ ¬ s.joystickButtons.testBit i then 1 else 0)
    ∧ ((pollCycle s inp).2.count (Notification.buttonReleased i)
        = if i < s.joystickNumButtons ∧ ¬ inp.buttons.testBit i
              ∧ s.joystickButtons.testBit i then 1 else 0) by
    refine ⟨(main s inp i).1, (main s inp i).2, ?_, ?_⟩
    · rw [(main sampleState sampleInput 0).1, if_pos]
      refine ⟨by simp [sampleState], by decide, by decide⟩
    · intro j
      rw [(main sampleState sampleInput j).2, if_neg]
      simp [sampleState]
  intro s inp i
  have hinjP : Function.Injective Notification.buttonPressed := by
    intro a b h
    cases h
    rfl
  have hinjR : Function.Injective Notification.buttonReleased := by
    intro a b h
    cases h
    rfl
  unfold pollCycle
  constructor
  · simp only [List.count_append]
    rw [count_filterMap_ite Notification.buttonPressed hinjP
        (fun j => inp.buttons.testBit j ∧ ¬ s.joystickButtons.testBit j)
        (List.range s.joystickNumButtons) i,
      count_filterMap_zero _ _ _ (by
        intro j y hj
        obtain ⟨-, hy⟩ := ite_some_none_eq_some.mp hj
        subst hy
        simp),
      count_filterMap_zero _ _ _ (by
        intro j y hj
        obtain ⟨-, hy⟩ := ite_some_none_eq_some.mp hj
        subst hy
        simp),
      count_range]
    have h0 : ∀ l : List Notification,
        (∀ y ∈ l, y ≠ Notification.buttonPressed i) →
        l.count (Notification.buttonPressed i) = 0 := by
      intro l hl
      rw [List.count_eq_zero]
      intro hmem
      exact hl _ hmem rfl
    rw [h0 _ (by split_ifs <;> simp), h0 _ (by simp)]
    split_ifs <;> simp_all
  · simp only [List.count_append]
    rw [count_filterMap_ite Notification.buttonReleased hinjR
        (fun j => ¬ inp.buttons.testBit j ∧ s.joystickButtons.testBit j)
        (List.range s.joystickNumButtons) i,
      count_filterMap_zero _ _ _ (by
        intro j y hj
        obtain ⟨-, hy⟩ := ite_some_none_eq_some.mp hj
        subst hy
        simp),
      count_filterMap_zero _ _ _ (by
        intro j y hj
        obtain ⟨-, hy⟩ := ite_some_none_eq_some.mp hj
        subst hy
        simp),
      count_range]
    have h0 : ∀ l : List Notification,
        (∀ y ∈ l, y ≠ Notification.buttonReleased i) →
        l.count (Notification.buttonReleased i) = 0 := by
      intro l hl
      rw [List.count_eq_zero]
      intro hmem
      exact hl _ hmem rfl
    rw [h0 _ (by split_ifs <;> simp), h0 _ (by simp)]
    split_ifs <;> simp_all

/-- C5: for every axis whose range-limit flag is enabled (and whose positive
calibration bound is, as by default, nonnegative), the calibrated output of
the per-axis transform is never negative, for any raw reading. -/
theorem C5_range_limit_nonneg (s : JoystickInput) (i : Nat) (r : ℚ)
    (hlim : s.joystickAxesLimited.getD i false = true)
    (hcp : 0 ≤ s.calibrationPositive.getD i 1) :
    0 ≤ axisCalibratedValue s i r := by
  unfold axisCalibratedValue
  rw [hlim]
  exact calibrate_nonneg _ _ _ _ _ _ hcp

theorem C5_witness :
    0 ≤ axisCalibratedValue (setAxisRangeLimit sampleState 0 true) 0 (-(1/2)) :=
  C5_range_limit_nonneg (setAxisRangeLimit sampleState 0 true) 0 (-(1/2))
    (by decide) (by decide)

lemma clampQ_neg (cp x : ℚ) (hcp : 0 ≤ cp) :
    clampQ (-cp) cp (-x) = - clampQ (-cp) cp x := by
  unfold clampQ
  rcases le_total x cp with h1 | h1 <;> rcases le_total x (-cp) with h2 | h2 <;>
    simp [max_def, min_def] <;> split_ifs <;> linarith

/-- C4 counterexample: on an axis with the range-limit flag enabled, enabling
inversion does not negate the non-inverted calibrated output: with raw
reading `0.5` (raw range `[-1, 1]`) the inverted, range-limited output is `0`
while the negated non-inverted output is `-0.5`. -/
theorem C4_counterexample :
    axisCalibratedValue
        (setAxisInversion (setAxisRangeLimit sampleState 0 true) 0 true) 0 (1/2)
      ≠ - axisCalibratedValue
        (setAxisInversion (setAxisRangeLimit sampleState 0 true) 0 false) 0
          (1/2) := by
  norm_num [sampleState, setAxisRangeLimit, setAxisInversion,
    axisCalibratedValue, calibrate, clampQ, min_def, max_def]

/-- C4 (amended): for every valid axis index whose range-limit flag is
disabled and whose calibration bounds are symmetric about zero (as they are
by default), after `setAxisInversion(axis, true)` the calibrated output for
any raw reading `r` equals the negation of the output of the same transform
with inversion disabled. -/
theorem C4_inversion_negates (s : JoystickInput) (axis : Nat) (r : ℚ)
    (hax : axis < s.joystickAxesInverted.length)
    (hlim : s.joystickAxesLimited.getD axis false = false)
    (hsym : s.calibrationNegative.getD axis (-1)
      = - s.calibrationPositive.getD axis 1)
    (hcp : 0 ≤ s.calibrationPositive.getD axis 1) :
    axisCalibratedValue (setAxisInversion s axis true) axis r
      = - axisCalibratedValue (setAxisInversion s axis false) axis r := by
  have hset : ∀ b : Bool,
      (setAxisInversion s axis b).joystickAxesInverted.getD axis false = b := by
    intro b
    simp [setAxisInversion, List.getD, List.getElem?_set_eq hax]
  unfold axisCalibratedValue
  simp only [setAxisInversion] at hset ⊢
  rw [hset true, hset false, hlim, hsym]
  unfold calibrate
  simp only [if_true, if_false, Bool.false_eq_true, ite_false, ite_true]
  exact clampQ_neg _ _ hcp

theorem C4_witness :
    axisCalibratedValue (setAxisInversion sampleState 0 true) 0 (1/3)
      = - axisCalibratedValue (setAxisInversion sampleState 0 false) 0 (1/3) :=
  C4_inversion_negates sampleState 0 (1/3) (by decide) (by decide) (by decide)
    (by decide)

lemma calibratedAxes_getD_bounds (s : JoystickInput) (inp : PollInput)
    (hcal : ∀ i, i < s.joystickNumAxes →
      -1 ≤ s.calibrationNegative.getD i (-1)
      ∧ s.calibrationNegative.getD i (-1) ≤ s.calibrationPositive.getD i 1
      ∧ s.calibrationPositive.getD i 1 ≤ 1) (j : Nat) :
    -1 ≤ (calibratedAxes s inp).getD j 0
      ∧ (calibratedAxes s inp).getD j 0 ≤ 1 := by
  by_cases hj : j < s.joystickNumAxes
  · rw [calibratedAxes_getD s inp j hj]
    exact calibrate_bounds _ _ _ _ _ _ _ (hcal j hj).1 (hcal j hj).2.1
      (hcal j hj).2.2
  · rw [List.getD_eq_default _ _ (by rw [calibratedAxes_length]; omega)]
    norm_num

/-- C3: every axis value reported after calibration lies in `[-1, 1]`: every
value emitted through `axisValueChanged` during a poll cycle, every value
`getCurrentValueForAxis` returns for a valid axis after the cycle, and every
defined channel value of the combined update; a logical channel with no
physical axis assigned carries the undefined sentinel instead.  The
calibration-bound hypotheses hold for the default bounds installed by
`setActiveJoystick`. -/
theorem C3_reported_values_bounded (s : JoystickInput) (inp : PollInput)
    (hcal : ∀ i, i < s.joystickNumAxes →
      -1 ≤ s.calibrationNegative.getD i (-1)
      ∧ s.calibrationNegative.getD i (-1) ≤ s.calibrationPositive.getD i 1
      ∧ s.calibrationPositive.getD i 1 ≤ 1) :
    (∀ i v, Notification.axisValueChanged i v ∈ (pollCycle s inp).2 →
      -1 ≤ v ∧ v ≤ 1)
  ∧ (∀ i : Nat, i < s.joystickNumAxes →
      ∀ v, getCurrentValueForAxis (pollCycle s inp).1 i = some v →
        -1 ≤ v ∧ v ≤ 1)
  ∧ (∀ r p y t hx hy b, Notification.joystickChanged r p y t hx hy b
        ∈ (pollCycle s inp).2 →
      ((s.rollAxis = none → r = none) ∧ (s.pitchAxis = none → p = none)
      ∧ (s.yawAxis = none → y = none) ∧ (s.throttleAxis = none → t = none)
      ∧ ∀ v, (r = some v ∨ p = some v ∨ y = some v ∨ t = some v) →
          -1 ≤ v ∧ v ≤ 1)) := by
  have hbound := calibratedAxes_getD_bounds s inp hcal
  refine ⟨?_, ?_, ?_⟩
  · intro i v hmem
    unfold pollCycle at hmem
    simp only [List.mem_append, List.mem_filterMap, List.mem_range,
      List.mem_singleton, ite_some_none_eq_some,
      Notification.axisValueChanged.injEq] at hmem
    rcases hmem with ((((⟨j, hj, hcond, hji, hval⟩ | h) | h) | h) | h)
    · rw [← hval]
      exact hbound j
    all_goals simp_all [List.mem_ite_nil_right]
  · intro i hi v hv
    unfold pollCycle getCurrentValueForAxis at hv
    simp only at hv
    have hlen : i < (calibratedAxes s inp).length := by
      rw [calibratedAxes_length]
      exact hi
    rw [List.getElem?_eq_getElem hlen, Option.some_inj] at hv
    rw [← hv, ← List.getD_eq_getElem _ 0 hlen]
    exact hbound i
  · intro r p y t hx hy b hmem
    unfold pollCycle at hmem
    simp only [List.mem_append, List.mem_filterMap, List.mem_range,
      List.mem_singleton, ite_some_none_eq_some] at hmem
    rcases hmem with ((((h | h) | h) | h) | hmem)
    · obtain ⟨j, hj, hcond, hcontra⟩ := h
      exact absurd hcontra (by simp)
    · obtain ⟨j, hj, hcond, hcontra⟩ := h
      exact absurd hcontra (by simp)
    · obtain ⟨j, hj, hcond, hcontra⟩ := h
      exact absurd hcontra (by simp)
    · rw [List.mem_ite_nil_right] at h
      exact absurd h.2 (by simp)
    · rw [Notification.joystickChanged.injEq] at hmem
      obtain ⟨hr, hp, hyw, ht, -, -, -⟩ := hmem
      subst hr hp hyw ht
      refine ⟨?_, ?_, ?_, ?_, ?_⟩
      · intro h; simp [channelValue, h]
      · intro h; simp [channelValue, h]
      · intro h; simp [channelValue, h]
      · intro h; simp [channelValue, h]
      · intro v hv
        rcases hv with hv | hv | hv | hv <;>
        · rcases Option.map_eq_some'.mp hv with ⟨j, hj, hval⟩
          rw [← hval]
          exact hbound j
theorem C3_witness :
    getCurrentValueForAxis (pollCycle sampleState sampleInput).1 0
        = some (1/2)
      ∧ (-1 ≤ ((1:ℚ)/2) ∧ ((1:ℚ)/2) ≤ 1) := by
  have heval : getCurrentValueForAxis (pollCycle sampleState sampleInput).1 0
      = some (1/2) := by
    norm_num [getCurrentValueForAxis, pollCycle, calibratedAxes,
      axisCalibratedValue, calibrate, clampQ, sampleState, sampleInput,
      min_def, max_def, List.range_succ]
  refine ⟨heval, ?_⟩
  refine (C3_reported_values_bounded sampleState sampleInput ?_).2.1 0
    (by simp [sampleState]) (1/2) heval
  intro i hi
  simp [sampleState] at hi
  interval_cases i <;> exact ⟨by decide, by decide, by decide⟩
